import Mathlib

/-!
Shallow embedding of the MMO game worker (the serverless backend in
src/unnamed/part_000, plus the one client constant it is specified
against, GRID_SIZE from src/game.js).

The worker keeps two shared collections in the Puter key-value store:
a players map (key "mmo_players") and a chat history array (key
"mmo_chat_history"), plus a derived stats object (key "mmo_game_stats").
Each HTTP handler performs a read-modify-write over one of these keys.

Modelling decisions:
- A JS Map is an association list in insertion order; Map.set replaces
  the first entry with the given key in place or appends a fresh entry
  at the end, Map.delete removes the entry and reports presence.
- JS numbers are modelled exactly: timestamps as Int, coordinates and
  Math.random() draws as ℚ.
- The store is a record of the three keys' current values (None = key
  never written) together with two failure flags: getFails makes every
  kv.get throw and setFails makes every kv.set throw. The worker wraps
  each access in try/catch, so a failing get yields the fallback value
  and a failing set leaves the store unchanged.
- Each handler returns its result together with the resulting store and
  the trace of key-value accesses it performed, in order.
-/

/-- Maximum number of persisted chat messages (part_000 line 6). -/
def MAX_CHAT_HISTORY : Nat := 100

/-- Maximum number of messages returned by GET /api/chat (part_000 line 7). -/
def MAX_CHAT_DISPLAY : Nat := 50

/-- Player inactivity timeout in milliseconds (part_000 line 8). -/
def PLAYER_TIMEOUT : Int := 30000

/-- Side length of the client's play field (game.js line 21). The worker
itself never reads this constant. -/
def GRID_SIZE : Int := 500

/-- Key of the shared players map (part_000 line 11). -/
def KV_PLAYERS_KEY : String := "mmo_players"

/-- Key of the shared chat history (part_000 line 12). -/
def KV_CHAT_KEY : String := "mmo_chat_history"

/-- Key of the derived stats object (part_000 line 13). -/
def KV_STATS_KEY : String := "mmo_game_stats"

/-- A player record as written by POST /api/player/position (part_000
lines 122-129). -/
structure Player where
  id : String
  username : String
  emoji : String
  x : Int
  y : Int
  lastUpdate : Int
deriving Repr, DecidableEq

/-- A chat message as written by POST /api/chat (part_000 lines 202-208).
The id is Date.now() + Math.random(), a number; the body is a string,
modelled as a character list. -/
structure ChatMessage where
  id : ℚ
  username : String
  message : List Char
  timestamp : String
  userId : String
deriving Repr, DecidableEq

/-- The stats object written by updateGameStats (part_000 lines 57-61). -/
structure GameStats where
  activePlayers : Nat
  totalMessages : Nat
  lastUpdate : Int
deriving Repr, DecidableEq

/-- State of the key-value store restricted to the three keys the worker
uses, plus flags that make every get (resp. set) throw. -/
structure KvStore where
  playersVal : Option (List (String × Player))
  chatVal : Option (List ChatMessage)
  statsVal : Option GameStats
  getFails : Bool
  setFails : Bool
deriving Repr, DecidableEq

/-- One access to the key-value store, as recorded in a handler's trace. -/
inductive KvEvent where
  | get (key : String)
  | set (key : String)
deriving Repr, DecidableEq

/-- Identity returned by user.puter.auth.getUser(). -/
structure UserInfo where
  uuid : String
  username : String
deriving Repr, DecidableEq

/-- JS Map.set on an insertion-ordered association list: replace the entry
with this key in place, or append a fresh entry at the end. -/
def mapSet : List (String × Player) → String → Player → List (String × Player)
  | [], k, v => [(k, v)]
  | e :: rest, k, v => if e.1 = k then (k, v) :: rest else e :: mapSet rest k v

/-- JS Map.get on an association list. -/
def mapGet (m : List (String × Player)) (k : String) : Option Player :=
  (m.find? (fun e => e.1 == k)).map (fun e => e.2)

/-- JS Map.delete on an association list: remove the entry with this key
and report whether it was present. -/
def mapDelete : List (String × Player) → String → List (String × Player) × Bool
  | [], _ => ([], false)
  | e :: rest, k =>
    if e.1 = k then (rest, true)
    else
      let r := mapDelete rest k
      (e :: r.1, r.2)

/-- getPlayers (part_000 lines 16-24): kv.get of the players key; a null
value or a thrown error both give an empty map. -/
def getPlayers (store : KvStore) : List (String × Player) :=
  if store.getFails then [] else store.playersVal.getD []

/-- savePlayers (part_000 lines 26-33): kv.set of the players key; a
thrown error is caught and logged, leaving the store unchanged. -/
def savePlayers (store : KvStore) (players : List (String × Player)) : KvStore :=
  if store.setFails then store else { store with playersVal := some players }

/-- getChatHistory (part_000 lines 35-43): kv.get of the chat key; a null
value or a thrown error both give an empty array. -/
def getChatHistory (store : KvStore) : List ChatMessage :=
  if store.getFails then [] else store.chatVal.getD []

/-- saveChatHistory (part_000 lines 45-51): kv.set of the chat key; a
thrown error is caught and logged, leaving the store unchanged. -/
def saveChatHistory (store : KvStore) (chatHistory : List ChatMessage) : KvStore :=
  if store.setFails then store else { store with chatVal := some chatHistory }

/-- Store update made by kv.set of the stats key inside updateGameStats. -/
def saveStats (store : KvStore) (stats : GameStats) : KvStore :=
  if store.setFails then store else { store with statsVal := some stats }

/-- updateGameStats (part_000 lines 53-68): reads both collections and
writes the derived stats object. -/
def updateGameStats (store : KvStore) (now : Int) : GameStats × KvStore × List KvEvent :=
  let players := getPlayers store
  let chatHistory := getChatHistory store
  let stats : GameStats := ⟨players.length, chatHistory.length, now⟩
  (stats, saveStats store stats,
    [KvEvent.get KV_PLAYERS_KEY, KvEvent.get KV_CHAT_KEY, KvEvent.set KV_STATS_KEY])

/-- JS Math.round in exact arithmetic: round half toward positive
infinity, that is the floor of x + 1/2. -/
def jsRound (q : ℚ) : Int := ⌊q + 1/2⌋

/-- Whitespace stripped by String.prototype.trim (the characters the chat
bodies in this repository can contain). -/
def isJsSpace (c : Char) : Bool := c == ' ' || c == '\t' || c == '\n' || c == '\r'

/-- JS String.prototype.trim: strip whitespace from both ends. -/
def jsTrim (s : List Char) : List Char :=
  ((s.dropWhile isJsSpace).reverse.dropWhile isJsSpace).reverse

/-- Chat message id generation (part_000 line 203): Date.now() plus a
Math.random() draw. The program computes this sum on IEEE-754 doubles,
where rounding can merge distinct draws at realistic timestamps; the
model takes the exact sum, so no theorem below may rely on distinct
inputs yielding distinct sums — only on equal inputs yielding equal
sums, which holds under any rounding. -/
def genId (t : Int) (r : ℚ) : ℚ := (t : ℚ) + r

/-- One append to the chat history (part_000 lines 212-217): push the new
message, then shift the oldest entry off the front if the length exceeds
MAX_CHAT_HISTORY. -/
def appendChat {α : Type} (chatHistory : List α) (msg : α) : List α :=
  let pushed := chatHistory ++ [msg]
  if pushed.length > MAX_CHAT_HISTORY then pushed.tail else pushed

/-- Appending a whole sequence of messages one call at a time. -/
def appendMany {α : Type} (chatHistory msgs : List α) : List α :=
  msgs.foldl appendChat chatHistory

/-- JS Array.prototype.slice(-limit) (part_000 line 157): the last limit
entries in original order; slice(-0) returns the whole array. -/
def tailRead {α : Type} (limit : Nat) (chatHistory : List α) : List α :=
  if limit = 0 then chatHistory else chatHistory.drop (chatHistory.length - limit)

/-- The TTL sweep loop of POST /api/cleanup (part_000 lines 249-254):
delete every player whose now - lastUpdate strictly exceeds the timeout,
counting deletions, preserving the order of the survivors. -/
def sweep (now timeout : Int) : List (String × Player) → List (String × Player) × Nat
  | [] => ([], 0)
  | e :: rest =>
    let r := sweep now timeout rest
    if now - e.2.lastUpdate > timeout then (r.1, r.2 + 1) else (e :: r.1, r.2)

/-- Request body of POST /api/player/position; a coordinate is None when
the field is absent or not a number (typeof check), and a missing emoji
is the empty string (both are falsy). -/
structure PositionBody where
  x : Option ℚ
  y : Option ℚ
  emoji : String
deriving Repr, DecidableEq

/-- Outcome of POST /api/player/position: 401, 400, or the success
payload (part_000 lines 92-150). -/
inductive PositionResult where
  | unauthorized
  | invalidInput
  | ok (playerId : String) (posX posY : Int) (totalPlayers : Nat)
deriving Repr, DecidableEq

/-- POST /api/player/position (part_000 lines 92-150): auth guard, then
type validation, then read-modify-write of the players map. -/
def positionHandler (store : KvStore) (user : Option UserInfo) (body : PositionBody)
    (now : Int) : PositionResult × KvStore × List KvEvent :=
  match user with
  | none => (.unauthorized, store, [])
  | some u =>
    match body.x, body.y with
    | some qx, some qy =>
      if body.emoji = "" then (.invalidInput, store, [])
      else
        let players := getPlayers store
        let newPlayers := mapSet players u.uuid
          ⟨u.uuid, u.username, body.emoji, jsRound qx, jsRound qy, now⟩
        (.ok u.uuid (jsRound qx) (jsRound qy) newPlayers.length,
          savePlayers store newPlayers,
          [KvEvent.get KV_PLAYERS_KEY, KvEvent.set KV_PLAYERS_KEY])
    | _, _ => (.invalidInput, store, [])

/-- Outcome of POST /api/chat (part_000 lines 173-237). -/
inductive ChatResult where
  | unauthorized
  | invalidInput
  | ok (msg : ChatMessage) (totalMessages : Nat)
deriving Repr, DecidableEq

/-- Body of the message a chat-send attempt stored, when it succeeded. -/
def sentBody : ChatResult → Option (List Char)
  | .ok cm _ => some cm.message
  | _ => none

/-- POST /api/chat (part_000 lines 173-237): auth guard, emptiness
validation on the trimmed body, sanitization to 200 characters, then
read-modify-write of the chat history. The message argument is None when
the field is absent or not a string. -/
def chatSendHandler (store : KvStore) (user : Option UserInfo)
    (message : Option (List Char)) (now : Int) (rand : ℚ) (isoNow : String) :
    ChatResult × KvStore × List KvEvent :=
  match user with
  | none => (.unauthorized, store, [])
  | some u =>
    match message with
    | none => (.invalidInput, store, [])
    | some raw =>
      if (jsTrim raw).length = 0 then (.invalidInput, store, [])
      else
        let sanitizedMessage := (jsTrim raw).take 200
        let chatMessage : ChatMessage :=
          ⟨genId now rand, u.username, sanitizedMessage, isoNow, u.uuid⟩
        let chatHistory := appendChat (getChatHistory store) chatMessage
        (.ok chatMessage chatHistory.length,
          saveChatHistory store chatHistory,
          [KvEvent.get KV_CHAT_KEY, KvEvent.set KV_CHAT_KEY])

/-- Success payload of GET /api/players (part_000 lines 71-89); the
handler's catch branch is unreachable because getPlayers never throws. -/
inductive PlayersListResult where
  | ok (players : List Player) (count : Nat) (timestamp : Int)
deriving Repr, DecidableEq

/-- GET /api/players (part_000 lines 71-89). -/
def playersListHandler (store : KvStore) (now : Int) :
    PlayersListResult × List KvEvent :=
  let players := getPlayers store
  let playerList := players.map (fun e => e.2)
  (.ok playerList playerList.length now, [KvEvent.get KV_PLAYERS_KEY])

/-- Success payload of GET /api/chat (part_000 lines 153-170). -/
inductive ChatListResult where
  | ok (messages : List ChatMessage) (totalMessages : Nat) (timestamp : Int)
deriving Repr, DecidableEq

/-- GET /api/chat (part_000 lines 153-170): slice(-MAX_CHAT_DISPLAY). -/
def chatGetHandler (store : KvStore) (now : Int) :
    ChatListResult × List KvEvent :=
  let chatHistory := getChatHistory store
  (.ok (tailRead MAX_CHAT_DISPLAY chatHistory) chatHistory.length now,
    [KvEvent.get KV_CHAT_KEY])

/-- Success payload of POST /api/cleanup (part_000 lines 240-278). -/
inductive CleanupResult where
  | ok (removedPlayers : Nat) (activePlayers : Nat) (timestamp : Int)
deriving Repr, DecidableEq

/-- POST /api/cleanup (part_000 lines 240-278): sweep with
PLAYER_TIMEOUT, save, then update stats. -/
def cleanupHandler (store : KvStore) (now : Int) :
    CleanupResult × KvStore × List KvEvent :=
  let players := getPlayers store
  let swept := sweep now PLAYER_TIMEOUT players
  let store1 := savePlayers store swept.1
  let statsStep := updateGameStats store1 now
  (.ok swept.2 swept.1.length now, statsStep.2.1,
    [KvEvent.get KV_PLAYERS_KEY, KvEvent.set KV_PLAYERS_KEY] ++ statsStep.2.2)

/-- Outcome of POST /api/player/logout (part_000 lines 310-349). -/
inductive LogoutResult where
  | unauthorized
  | ok (playerRemoved : Bool) (playerId : String) (remainingPlayers : Nat)
deriving Repr, DecidableEq

/-- POST /api/player/logout (part_000 lines 310-349): auth guard, then
Map.delete of the caller's uuid, save, then update stats. -/
def logoutHandler (store : KvStore) (user : Option UserInfo) (now : Int) :
    LogoutResult × KvStore × List KvEvent :=
  match user with
  | none => (.unauthorized, store, [])
  | some u =>
    let players := getPlayers store
    let deleted := mapDelete players u.uuid
    let store1 := savePlayers store deleted.1
    let statsStep := updateGameStats store1 now
    (.ok deleted.2 u.uuid deleted.1.length, statsStep.2.1,
      [KvEvent.get KV_PLAYERS_KEY, KvEvent.set KV_PLAYERS_KEY] ++ statsStep.2.2)

/-- A store in which neither collection key has ever been written and
no access fails. -/
def freshStore : KvStore := ⟨none, none, none, false, false⟩

/-! Helper lemmas about the chat history append. -/

theorem length_appendChat {α : Type} (h : List α) (m : α) :
    (appendChat h m).length =
      if h.length + 1 > MAX_CHAT_HISTORY then h.length else h.length + 1 := by
  unfold appendChat
  by_cases hc : (h ++ [m]).length > MAX_CHAT_HISTORY
  · have hl : (h ++ [m]).length = h.length + 1 := by simp
    rw [if_pos hc, List.length_tail]
    rw [hl] at hc ⊢
    rw [if_pos hc]
    omega
  · have hl : (h ++ [m]).length = h.length + 1 := by simp
    rw [if_neg hc]
    rw [hl] at hc ⊢
    rw [if_neg hc]

theorem appendChat_suffix {α : Type} (h : List α) (m : α) :
    appendChat h m <:+ h ++ [m] := by
  unfold appendChat
  by_cases hc : (h ++ [m]).length > MAX_CHAT_HISTORY
  · rw [if_pos hc]; exact List.tail_suffix _
  · rw [if_neg hc]

theorem appendMany_suffix {α : Type} (msgs h : List α) :
    appendMany h msgs <:+ h ++ msgs := by
  induction msgs generalizing h with
  | nil => simp [appendMany]
  | cons m ms ih =>
    have h1 : appendMany h (m :: ms) = appendMany (appendChat h m) ms := rfl
    rw [h1]
    have h2 := ih (appendChat h m)
    have h3 : appendChat h m ++ ms <:+ h ++ m :: ms := by
      obtain ⟨u, hu⟩ := appendChat_suffix h m
      refine ⟨u, ?_⟩
      rw [← List.append_assoc, hu, List.append_assoc]
      simp
    exact h2.trans h3

theorem length_appendMany_ge {α : Type} (msgs h : List α) :
    min (h.length + msgs.length) MAX_CHAT_HISTORY ≤ (appendMany h msgs).length := by
  induction msgs generalizing h with
  | nil =>
    simp only [appendMany, List.foldl_nil, List.length_nil, Nat.add_zero]
    omega
  | cons m ms ih =>
    have h1 : appendMany h (m :: ms) = appendMany (appendChat h m) ms := rfl
    rw [h1]
    have h2 := ih (appendChat h m)
    have h3 := length_appendChat h m
    by_cases hc : h.length + 1 > MAX_CHAT_HISTORY
    · rw [if_pos hc] at h3
      simp only [List.length_cons] at *
      omega
    · rw [if_neg hc] at h3
      simp only [List.length_cons] at *
      omega

theorem length_appendMany_le {α : Type} (msgs h : List α)
    (hh : h.length ≤ MAX_CHAT_HISTORY) :
    (appendMany h msgs).length ≤ MAX_CHAT_HISTORY := by
  induction msgs generalizing h with
  | nil => simpa [appendMany] using hh
  | cons m ms ih =>
    have h1 : appendMany h (m :: ms) = appendMany (appendChat h m) ms := rfl
    rw [h1]
    apply ih
    have h3 := length_appendChat h m
    by_cases hc : h.length + 1 > MAX_CHAT_HISTORY
    · rw [if_pos hc] at h3
      omega
    · rw [if_neg hc] at h3
      omega

theorem suffix_drop_eq {α : Type} (n : Nat) (s t : List α) (hsuf : s <:+ t)
    (hs : n ≤ s.length) :
    s.drop (s.length - n) = t.drop (t.length - n) := by
  obtain ⟨u, rfl⟩ := hsuf
  have hl : (u ++ s).length = u.length + s.length := by simp
  rw [hl]
  have harith : u.length + s.length - n = u.length + (s.length - n) := by omega
  rw [harith, List.drop_append]

/-- C1: starting from any persisted chat sequence of at most
MAX_CHAT_HISTORY entries, one append (and hence any number of appends)
leaves at most MAX_CHAT_HISTORY entries; and after appending more than
MAX_CHAT_HISTORY messages to ANY starting sequence, the last
MAX_CHAT_HISTORY entries are exactly the last MAX_CHAT_HISTORY appended
messages in insertion order. -/
theorem C1_chat_history_bound {α : Type} (hist msgs : List α) (m : α) :
    (hist.length ≤ MAX_CHAT_HISTORY →
      (appendChat hist m).length ≤ MAX_CHAT_HISTORY) ∧
    (hist.length ≤ MAX_CHAT_HISTORY →
      (appendMany hist msgs).length ≤ MAX_CHAT_HISTORY) ∧
    (MAX_CHAT_HISTORY < msgs.length →
      tailRead MAX_CHAT_HISTORY (appendMany hist msgs) =
        msgs.drop (msgs.length - MAX_CHAT_HISTORY)) := by
  refine ⟨?_, fun hh => length_appendMany_le msgs hist hh, ?_⟩
  · intro hh
    have h3 := length_appendChat hist m
    by_cases hc : hist.length + 1 > MAX_CHAT_HISTORY
    · rw [if_pos hc] at h3
      omega
    · rw [if_neg hc] at h3
      omega
  · intro hk
    have hsuf := appendMany_suffix msgs hist
    have hge := length_appendMany_ge msgs hist
    have hlen : MAX_CHAT_HISTORY ≤ (appendMany hist msgs).length := by omega
    have hne : MAX_CHAT_HISTORY ≠ 0 := by decide
    simp only [tailRead, if_neg hne]
    rw [suffix_drop_eq MAX_CHAT_HISTORY _ _ hsuf hlen]
    have hl : (hist ++ msgs).length = hist.length + msgs.length := by simp
    rw [hl]
    have harith : hist.length + msgs.length - MAX_CHAT_HISTORY =
        hist.length + (msgs.length - MAX_CHAT_HISTORY) := by omega
    rw [harith, List.drop_append]

set_option maxRecDepth 4000 in
theorem C1_chat_history_bound_witness :
    ([] : List Nat).length ≤ MAX_CHAT_HISTORY ∧
    MAX_CHAT_HISTORY < (List.range 101).length ∧
    (appendChat ([] : List Nat) 0).length ≤ MAX_CHAT_HISTORY ∧
    (appendMany ([] : List Nat) (List.range 101)).length ≤ MAX_CHAT_HISTORY ∧
    tailRead MAX_CHAT_HISTORY (appendMany ([] : List Nat) (List.range 101)) =
      (List.range 101).drop ((List.range 101).length - MAX_CHAT_HISTORY) :=
  ⟨by decide, by decide,
    (C1_chat_history_bound ([] : List Nat) (List.range 101) 0).1 (by decide),
    (C1_chat_history_bound ([] : List Nat) (List.range 101) 0).2.1 (by decide),
    (C1_chat_history_bound ([] : List Nat) (List.range 101) 0).2.2 (by decide)⟩

/-! Helper lemmas about the TTL sweep. -/

theorem sweep_fst (now timeout : Int) (players : List (String × Player)) :
    (sweep now timeout players).1 =
      players.filter (fun e => decide (now - e.2.lastUpdate ≤ timeout)) := by
  induction players with
  | nil => rfl
  | cons e rest ih =>
    by_cases hc : now - e.2.lastUpdate > timeout
    · have hk : ¬ now - e.2.lastUpdate ≤ timeout := by omega
      simp [sweep, hc, List.filter_cons, hk, ih]
      rw [if_neg (by omega)]
    · have hk : now - e.2.lastUpdate ≤ timeout := by omega
      simp [sweep, hc, List.filter_cons, hk, ih]
      rw [if_pos (by omega)]

theorem sweep_snd (now timeout : Int) (players : List (String × Player)) :
    (sweep now timeout players).2 =
      (players.filter (fun e => decide (timeout < now - e.2.lastUpdate))).length := by
  induction players with
  | nil => rfl
  | cons e rest ih =>
    by_cases hc : now - e.2.lastUpdate > timeout
    · have hk : timeout < now - e.2.lastUpdate := hc
      simp [sweep, hc, List.filter_cons, hk, ih]
    · have hk : ¬ timeout < now - e.2.lastUpdate := hc
      simp [sweep, hc, List.filter_cons, hk, ih]

/-- C2: the sweep removes exactly the players strictly older than the
timeout: the surviving collection is the subsequence of entries with
now - lastUpdate at most the timeout in unchanged order, the returned
count is the number of strictly-stale entries, and any entry sitting
exactly on the boundary now - lastUpdate = timeout survives. -/
theorem C2_sweep_exact (players : List (String × Player)) (now timeout : Int) :
    (sweep now timeout players).1 =
      players.filter (fun e => decide (now - e.2.lastUpdate ≤ timeout)) ∧
    (sweep now timeout players).2 =
      (players.filter (fun e => decide (timeout < now - e.2.lastUpdate))).length ∧
    (∀ e ∈ players, now - e.2.lastUpdate = timeout →
      e ∈ (sweep now timeout players).1) := by
  refine ⟨sweep_fst now timeout players, sweep_snd now timeout players, ?_⟩
  intro e he hb
  rw [sweep_fst now timeout players]
  rw [List.mem_filter]
  exact ⟨he, by rw [hb]; simp⟩

/-- A concrete player used by the claim witnesses. -/
def playerA : Player := ⟨"a", "alice", "E", 1, 2, 0⟩

theorem C2_sweep_exact_witness :
    ("a", playerA) ∈ [("a", playerA)] ∧
    30000 - ("a", playerA).2.lastUpdate = PLAYER_TIMEOUT ∧
    ("a", playerA) ∈ (sweep 30000 PLAYER_TIMEOUT [("a", playerA)]).1 :=
  ⟨by decide, by decide,
    (C2_sweep_exact [("a", playerA)] 30000 PLAYER_TIMEOUT).2.2
      ("a", playerA) (by decide) (by decide)⟩

/-- C5: for an authenticated chat send whose body is a string, the
request is rejected as invalid exactly when the trimmed body is empty;
otherwise it succeeds and stores the trimmed body truncated to at most
200 characters (an over-long body is truncated, never rejected). -/
theorem C5_chat_validation (store : KvStore) (u : UserInfo) (raw : List Char)
    (now : Int) (rand : ℚ) (iso : String) :
    ((chatSendHandler store (some u) (some raw) now rand iso).1 =
        ChatResult.invalidInput ↔ jsTrim raw = []) ∧
    (jsTrim raw ≠ [] →
      sentBody (chatSendHandler store (some u) (some raw) now rand iso).1 =
        some ((jsTrim raw).take 200) ∧
      ((jsTrim raw).take 200).length ≤ 200) := by
  by_cases hc : (jsTrim raw).length = 0
  · have hnil : jsTrim raw = [] := List.length_eq_zero.mp hc
    constructor
    · simp only [chatSendHandler, if_pos hc]
      exact iff_of_true trivial hnil
    · intro hne
      exact absurd hnil hne
  · have hnil : jsTrim raw ≠ [] := fun h => hc (by rw [h]; rfl)
    constructor
    · constructor
      · intro h
        simp only [chatSendHandler, if_neg hc] at h
        exact ChatResult.noConfusion h
      · intro h
        exact absurd h hnil
    · intro _
      refine ⟨?_, List.length_take_le 200 (jsTrim raw)⟩
      simp only [chatSendHandler, if_neg hc, sentBody]

theorem C5_chat_validation_witness :
    jsTrim "  hi  ".toList ≠ [] ∧
    sentBody (chatSendHandler freshStore (some ⟨"u1", "alice"⟩)
        (some "  hi  ".toList) 7 0 "T").1 =
      some ((jsTrim "  hi  ".toList).take 200) ∧
    ((jsTrim "  hi  ".toList).take 200).length ≤ 200 :=
  ⟨by decide,
    (C5_chat_validation freshStore ⟨"u1", "alice"⟩ "  hi  ".toList 7 0 "T").2
      (by decide)⟩

/-- C6: an unauthenticated request to any of the three authenticated
mutating endpoints — position update, chat send, logout — yields the 401
unauthorized response, leaves the store untouched, performs no key-value
access at all (empty trace), and does so for every request body, so no
input validation happens first. -/
theorem C6_unauthenticated_guard (store : KvStore) (body : PositionBody)
    (message : Option (List Char)) (now : Int) (rand : ℚ) (iso : String) :
    positionHandler store none body now = (PositionResult.unauthorized, store, []) ∧
    chatSendHandler store none message now rand iso =
      (ChatResult.unauthorized, store, []) ∧
    logoutHandler store none now = (LogoutResult.unauthorized, store, []) :=
  ⟨rfl, rfl, rfl⟩

/-! Helper lemmas about Map.delete. -/

theorem mapDelete_snd (m : List (String × Player)) (k : String) :
    ((mapDelete m k).2 = true ↔ ∃ p, (k, p) ∈ m) := by
  induction m with
  | nil => simp [mapDelete]
  | cons e rest ih =>
    obtain ⟨a, b⟩ := e
    by_cases hc : a = k
    · subst hc
      simp [mapDelete]
    · have hc2 : ¬ (a, b).1 = k := hc
      simp only [mapDelete, if_neg hc2]
      rw [ih]
      constructor
      · rintro ⟨p, hp⟩
        exact ⟨p, List.mem_cons_of_mem _ hp⟩
      · rintro ⟨p, hp⟩
        rcases List.mem_cons.mp hp with h | h
        · exact absurd (congrArg Prod.fst h).symm hc
        · exact ⟨p, h⟩

theorem mapDelete_preserves_absent (m : List (String × Player)) (k : String)
    (hnd : (m.map Prod.fst).Nodup) (p : Player) : (k, p) ∉ (mapDelete m k).1 := by
  induction m with
  | nil => simp [mapDelete]
  | cons e rest ih =>
    obtain ⟨a, b⟩ := e
    simp only [List.map_cons, List.nodup_cons] at hnd
    by_cases hc : a = k
    · subst hc
      have hc2 : ((a, b) : String × Player).1 = a := rfl
      simp only [mapDelete, if_pos hc2]
      intro hmem
      exact hnd.1 (List.mem_map.mpr ⟨(a, p), hmem, rfl⟩)
    · have hc2 : ¬ ((a, b) : String × Player).1 = k := hc
      simp only [mapDelete, if_neg hc2]
      intro hmem
      rcases List.mem_cons.mp hmem with h | h
      · exact hc (congrArg Prod.fst h).symm
      · exact ih hnd.2 h

/-- C7: on a well-formed players map (no duplicate identities),
Map.delete returns true exactly when the identity is present, and a
second delete of the same identity right after the first returns false
(removing an absent identity reports false rather than failing). -/
theorem C7_remove_idempotent (m : List (String × Player)) (k : String)
    (hnd : (m.map Prod.fst).Nodup) :
    ((mapDelete m k).2 = true ↔ ∃ p, (k, p) ∈ m) ∧
    (mapDelete (mapDelete m k).1 k).2 = false := by
  refine ⟨mapDelete_snd m k, ?_⟩
  cases hb : (mapDelete (mapDelete m k).1 k).2 with
  | false => rfl
  | true =>
    obtain ⟨p, hp⟩ := (mapDelete_snd (mapDelete m k).1 k).mp hb
    exact absurd hp (mapDelete_preserves_absent m k hnd p)

theorem C7_remove_idempotent_witness :
    ((([("a", playerA)].map Prod.fst).Nodup) ∧
      ((mapDelete [("a", playerA)] "a").2 = true ↔ ∃ p, ("a", p) ∈ [("a", playerA)]) ∧
      (mapDelete (mapDelete [("a", playerA)] "a").1 "a").2 = false) :=
  ⟨by simp, C7_remove_idempotent [("a", playerA)] "a" (by simp)⟩

/-- A store whose players key holds one entry but in which every kv.get
throws. -/
def readFailStore : KvStore := ⟨some [("a", playerA)], none, none, true, false⟩

/-- C8: when the underlying fetch of the players key fails, the GET
/api/players handler degrades to an empty list with count 0 instead of
propagating the failure. -/
theorem C8_players_read_degrades (store : KvStore) (now : Int)
    (h : store.getFails = true) :
    playersListHandler store now =
      (PlayersListResult.ok [] 0 now, [KvEvent.get KV_PLAYERS_KEY]) := by
  simp [playersListHandler, getPlayers, h]

theorem C8_players_read_degrades_witness :
    readFailStore.getFails = true ∧
    playersListHandler readFailStore 7 =
      (PlayersListResult.ok [] 0 7, [KvEvent.get KV_PLAYERS_KEY]) :=
  ⟨rfl, C8_players_read_degrades readFailStore 7 rfl⟩

/-- C10: when neither collection key has ever been written and reads do
not fail, every read treats the missing value as the empty collection:
getPlayers yields the empty map, getChatHistory the empty sequence, GET
/api/players answers count 0 and GET /api/chat answers an empty message
list with totalMessages 0, without error. -/
theorem C10_fresh_store_empty (store : KvStore) (now : Int)
    (hp : store.playersVal = none) (hc : store.chatVal = none)
    (hg : store.getFails = false) :
    getPlayers store = [] ∧
    getChatHistory store = [] ∧
    playersListHandler store now =
      (PlayersListResult.ok [] 0 now, [KvEvent.get KV_PLAYERS_KEY]) ∧
    chatGetHandler store now =
      (ChatListResult.ok [] 0 now, [KvEvent.get KV_CHAT_KEY]) := by
  refine ⟨?_, ?_, ?_, ?_⟩
  · simp [getPlayers, hp, hg]
  · simp [getChatHistory, hc, hg]
  · simp [playersListHandler, getPlayers, hp, hg]
  · simp [chatGetHandler, getChatHistory, hc, hg, tailRead]

theorem C10_fresh_store_empty_witness :
    freshStore.playersVal = none ∧ freshStore.chatVal = none ∧
    freshStore.getFails = false ∧
    getPlayers freshStore = [] ∧
    getChatHistory freshStore = [] ∧
    playersListHandler freshStore 0 =
      (PlayersListResult.ok [] 0 0, [KvEvent.get KV_PLAYERS_KEY]) ∧
    chatGetHandler freshStore 0 =
      (ChatListResult.ok [] 0 0, [KvEvent.get KV_CHAT_KEY]) := by
  refine ⟨rfl, rfl, rfl, ?_⟩
  exact C10_fresh_store_empty freshStore 0 rfl rfl rfl

/-! Helper lemma about Map.set followed by Map.get. -/

theorem mapGet_mapSet (m : List (String × Player)) (k : String) (v : Player) :
    mapGet (mapSet m k v) k = some v := by
  induction m with
  | nil => simp [mapSet, mapGet]
  | cons e rest ih =>
    by_cases hc : e.1 = k
    · simp [mapSet, if_pos hc, mapGet]
    · simp only [mapSet, if_neg hc]
      have hb : (e.1 == k) = false := beq_false_of_ne hc
      simp only [mapGet, List.find?_cons, hb]
      exact ih

/-- C3 counterexample: an authenticated position update with x = -5
(a number) is accepted, and both the response and the stored player
record carry x = -5, which lies outside [0, GRID_SIZE] — the worker
rounds but never clamps. -/
theorem C3_no_clamp_counterexample :
    (positionHandler freshStore (some ⟨"u1", "alice"⟩)
        ⟨some (-5), some 7, "E"⟩ 5).1 =
      PositionResult.ok "u1" (jsRound (-5)) (jsRound 7) 1 ∧
    mapGet (getPlayers (positionHandler freshStore (some ⟨"u1", "alice"⟩)
        ⟨some (-5), some 7, "E"⟩ 5).2.1) "u1" =
      some ⟨"u1", "alice", "E", jsRound (-5), jsRound 7, 5⟩ ∧
    jsRound (-5) = -5 ∧
    ¬ (0 ≤ (-5 : Int) ∧ (-5 : Int) ≤ GRID_SIZE) :=
  ⟨rfl, rfl, by norm_num [jsRound], by decide⟩

/-- C3 amended: for every authenticated upsert with numeric x, y and
non-empty avatar, the stored and returned position is exactly
(round x, round y) — rounded to integers, but NOT clamped to
[0, GRID_SIZE]; whatever integers the rounding yields are stored. -/
theorem C3_round_no_clamp (store : KvStore) (u : UserInfo) (qx qy : ℚ)
    (emoji : String) (now : Int) (he : ¬ emoji = "")
    (hg : store.getFails = false) (hs : store.setFails = false) :
    (positionHandler store (some u) ⟨some qx, some qy, emoji⟩ now).1 =
      PositionResult.ok u.uuid (jsRound qx) (jsRound qy)
        (mapSet (getPlayers store) u.uuid
          ⟨u.uuid, u.username, emoji, jsRound qx, jsRound qy, now⟩).length ∧
    mapGet (getPlayers (positionHandler store (some u)
        ⟨some qx, some qy, emoji⟩ now).2.1) u.uuid =
      some ⟨u.uuid, u.username, emoji, jsRound qx, jsRound qy, now⟩ := by
  constructor
  · simp only [positionHandler, if_neg he]
  · simp only [positionHandler, if_neg he, savePlayers, hs, if_false,
      Bool.false_eq_true]
    simp only [getPlayers, hg, Bool.false_eq_true, if_false, Option.getD_some]
    exact mapGet_mapSet _ u.uuid _

theorem C3_round_no_clamp_witness :
    ¬ ("E" : String) = "" ∧
    ((positionHandler freshStore (some ⟨"u1", "alice"⟩)
        ⟨some (-5), some 7, "E"⟩ 5).1 =
      PositionResult.ok "u1" (jsRound (-5)) (jsRound 7)
        (mapSet (getPlayers freshStore) "u1"
          ⟨"u1", "alice", "E", jsRound (-5), jsRound 7, 5⟩).length ∧
    mapGet (getPlayers (positionHandler freshStore (some ⟨"u1", "alice"⟩)
        ⟨some (-5), some 7, "E"⟩ 5).2.1) "u1" =
      some ⟨"u1", "alice", "E", jsRound (-5), jsRound 7, 5⟩) :=
  ⟨by decide, C3_round_no_clamp freshStore ⟨"u1", "alice"⟩ (-5) 7 "E" 5
    (by decide) rfl rfl⟩

/-- A store in which every kv.set throws, with both collections present. -/
def writeFailStore : KvStore := ⟨some [], some [], none, false, true⟩

/-- C4 counterexample: with a store whose writes fail, an authenticated
position update and an authenticated chat send both report success (and
leave the store unchanged, so the update is silently dropped) instead of
failing with StoreUnavailable. -/
theorem C4_success_despite_write_failure_counterexample :
    writeFailStore.setFails = true ∧
    (positionHandler writeFailStore (some ⟨"u1", "alice"⟩)
        ⟨some 1, some 2, "E"⟩ 5).1 =
      PositionResult.ok "u1" (jsRound 1) (jsRound 2) 1 ∧
    (positionHandler writeFailStore (some ⟨"u1", "alice"⟩)
        ⟨some 1, some 2, "E"⟩ 5).2.1 = writeFailStore ∧
    (chatSendHandler writeFailStore (some ⟨"u1", "alice"⟩)
        (some ['h', 'i']) 5 0 "T").1 =
      ChatResult.ok ⟨genId 5 0, "alice", ['h', 'i'], "T", "u1"⟩ 1 ∧
    (chatSendHandler writeFailStore (some ⟨"u1", "alice"⟩)
        (some ['h', 'i']) 5 0 "T").2.1 = writeFailStore :=
  ⟨rfl, rfl, rfl, rfl, rfl⟩

/-- C4 amended: when the underlying key-value store write fails during an
authenticated, valid position upsert or chat append, the error is caught
and logged inside savePlayers / saveChatHistory: the operation still
reports success to the caller and the store is left unchanged — the
failure is never surfaced as StoreUnavailable (HTTP 500). -/
theorem C4_write_failure_swallowed (store : KvStore) (u : UserInfo)
    (qx qy : ℚ) (emoji : String) (raw : List Char) (now : Int) (rand : ℚ)
    (iso : String) (hs : store.setFails = true) (he : ¬ emoji = "")
    (hm : ¬ (jsTrim raw).length = 0) :
    (positionHandler store (some u) ⟨some qx, some qy, emoji⟩ now).1 =
      PositionResult.ok u.uuid (jsRound qx) (jsRound qy)
        (mapSet (getPlayers store) u.uuid
          ⟨u.uuid, u.username, emoji, jsRound qx, jsRound qy, now⟩).length ∧
    (positionHandler store (some u) ⟨some qx, some qy, emoji⟩ now).2.1 =
      store ∧
    sentBody (chatSendHandler store (some u) (some raw) now rand iso).1 =
      some ((jsTrim raw).take 200) ∧
    (chatSendHandler store (some u) (some raw) now rand iso).2.1 = store := by
  refine ⟨?_, ?_, ?_, ?_⟩
  · simp only [positionHandler, if_neg he]
  · simp only [positionHandler, if_neg he, savePlayers, hs, if_true]
  · simp only [chatSendHandler, if_neg hm, sentBody]
  · simp only [chatSendHandler, if_neg hm, saveChatHistory, hs, if_true]

theorem C4_write_failure_swallowed_witness :
    writeFailStore.setFails = true ∧
    ((positionHandler writeFailStore (some ⟨"u1", "alice"⟩)
        ⟨some 1, some 2, "E"⟩ 5).1 =
      PositionResult.ok "u1" (jsRound 1) (jsRound 2)
        (mapSet (getPlayers writeFailStore) "u1"
          ⟨"u1", "alice", "E", jsRound 1, jsRound 2, 5⟩).length ∧
    (positionHandler writeFailStore (some ⟨"u1", "alice"⟩)
        ⟨some 1, some 2, "E"⟩ 5).2.1 = writeFailStore ∧
    sentBody (chatSendHandler writeFailStore (some ⟨"u1", "alice"⟩)
        (some ['h', 'e', 'y']) 5 0 "T").1 =
      some ((jsTrim ['h', 'e', 'y']).take 200) ∧
    (chatSendHandler writeFailStore (some ⟨"u1", "alice"⟩)
        (some ['h', 'e', 'y']) 5 0 "T").2.1 = writeFailStore) :=
  ⟨rfl, C4_write_failure_swallowed writeFailStore ⟨"u1", "alice"⟩ 1 2 "E"
    ['h', 'e', 'y'] 5 0 "T" rfl (by decide) (by decide)⟩

/-- C9 counterexample: two different chat messages built in the same
millisecond whose independently drawn random components happen to take
the same value receive the same id — the pair of (timestamp, random)
inputs (1000, 1/2), (1000, 1/2) makes the id generator collide for two
different messages. -/
theorem C9_id_collision_counterexample :
    genId 1000 (1/2) = genId 1000 (1/2) ∧
    (⟨genId 1000 (1/2), "alice", ['h'], "T", "u1"⟩ : ChatMessage) ≠
      (⟨genId 1000 (1/2), "alice", ['i'], "T", "u1"⟩ : ChatMessage) := by
  refine ⟨rfl, ?_⟩
  intro h
  injection h with h1 h2 h3 h4 h5
  exact absurd h3 (by decide)

/-- C9 amended: generated ids are NOT guaranteed distinct: for every
timestamp and every random draw, two different messages built from the
same (timestamp, random) pair of inputs receive identical ids, so two
messages created in the same millisecond whose independently drawn
random components happen to be equal collide — id uniqueness is
probabilistic, not guaranteed. (This holds under any arithmetic model
of the sum, since equal inputs give equal sums.) -/
theorem C9_equal_draw_collision (t : Int) (r : ℚ) (u : UserInfo)
    (iso : String) (b1 b2 : List Char) (hb : b1 ≠ b2) :
    (⟨genId t r, u.username, b1, iso, u.uuid⟩ : ChatMessage) ≠
      (⟨genId t r, u.username, b2, iso, u.uuid⟩ : ChatMessage) ∧
    (⟨genId t r, u.username, b1, iso, u.uuid⟩ : ChatMessage).id =
      (⟨genId t r, u.username, b2, iso, u.uuid⟩ : ChatMessage).id := by
  refine ⟨?_, rfl⟩
  intro h
  injection h with h1 h2 h3 h4 h5
  exact absurd h3 hb

theorem C9_equal_draw_collision_witness :
    (['h'] : List Char) ≠ ['i'] ∧
    ((⟨genId 1000 (1/2), "alice", ['h'], "T", "u1"⟩ : ChatMessage) ≠
      (⟨genId 1000 (1/2), "alice", ['i'], "T", "u1"⟩ : ChatMessage) ∧
    (⟨genId 1000 (1/2), "alice", ['h'], "T", "u1"⟩ : ChatMessage).id =
      (⟨genId 1000 (1/2), "alice", ['i'], "T", "u1"⟩ : ChatMessage).id) :=
  ⟨by decide, C9_equal_draw_collision 1000 (1/2) ⟨"u1", "alice"⟩ "T"
    ['h'] ['i'] (by decide)⟩
